import Mathlib

/-!
Shallow embedding of `src/Input.c` (Mylly input hooker library).

Pointers are modelled by identity numbers: a handler function pointer is a
`Nat`, an opaque userdata pointer is a `Nat`.  Handler semantics are supplied
to the dispatch functions as explicit environments (a hook handler may read
the current cursor position, which the library exposes through
`input_get_cursor_pos`).  Every dispatch function additionally returns the
trace of handler invocations it performed, in order, so that claims about
which handlers run, how often, and with which arguments are statable.

Nullable pointers become `Option`; dereferencing a null pointer has no
defined result, so an operation that dereferences its argument
unconditionally returns `Option InputState` and yields `none` on a null
handle.
-/

namespace Input

/-- Event-type identifiers (the `INPUT_EVENT` enum of the C headers). -/
abbrev INPUT_EVENT := Nat

/-- Modelled from the spec: `NUM_INPUT_EVENTS`, the number of raw event
types, is declared in a header outside `src`.  Its exact value is immaterial
to the dispatch logic (only the guard `type < NUM_INPUT_EVENTS` matters), so
a fixed positive constant is used. -/
def NUM_INPUT_EVENTS : Nat := 8

/-- Modelled from the spec: the `MOUSE_NONE` member of the `MOUSEBTN` enum
(declared in a header outside `src`).  Buttons are only ever compared for
equality, so any fixed value serves. -/
def MOUSE_NONE : Nat := 0

/-- Keyboard bind types (`BINDTYPE_KB`). -/
inductive BINDTYPE_KB where
  | BIND_KEYUP
  | BIND_KEYDOWN
  | BIND_CHAR
deriving DecidableEq

/-- Mouse bind types (`BINDTYPE_MOUSE`). -/
inductive BINDTYPE_MOUSE where
  | BIND_BTNUP
  | BIND_BTNDOWN
  | BIND_MOVE
deriving DecidableEq

/-- Modelled from the spec: `rectangle_t` belongs to a collaborator outside
`src`; a rectangle is given by its two corners. -/
structure Rect where
  x1 : Int
  y1 : Int
  x2 : Int
  y2 : Int
deriving DecidableEq

/-- Modelled from the spec: `rect_is_point_in` is the geometry collaborator
outside `src`; the spec states containment is point-in-rectangle, inclusive
of the rectangle edges. -/
def rect_is_point_in (r : Rect) (x y : Int) : Bool :=
  decide (r.x1 ≤ x ∧ x ≤ r.x2 ∧ r.y1 ≤ y ∧ y ≤ r.y2)

/-- The `KeyBind` record (list node header dropped; list membership is
modelled by membership in the containing list). -/
structure KeyBind where
  type : BINDTYPE_KB
  key : Nat
  handler : Nat
  userdata : Nat
deriving DecidableEq

/-- The `MouseBind` record. -/
structure MouseBind where
  type : BINDTYPE_MOUSE
  bounds : Rect
  button : Nat
  handler : Nat
  userdata : Nat
deriving DecidableEq

/-- The `InputEvent` value built by the two raw dispatch entry points.  The
C type is a tagged union; numeric field widths come from a header outside
`src` and are modelled as exact integers, except the `uint8` casts on the
mouse button and wheel fields which are kept. -/
inductive InputEvent where
  | keyboard (type : Nat) (key : Nat)
  | mouse (type : Nat) (x y dx dy : Int) (button : Nat) (wheel : Nat)
deriving DecidableEq

/-- One recorded hook invocation: the handler called, the event value passed
to it, and the cursor position it observes at call time. -/
structure HookCall where
  handler : Nat
  event : InputEvent
  seen_x : Int
  seen_y : Int
deriving DecidableEq

/-- One recorded key-bind handler invocation. -/
structure KeyCall where
  handler : Nat
  key : Nat
  userdata : Nat
deriving DecidableEq

/-- One recorded mouse-bind handler invocation. -/
structure MouseCall where
  handler : Nat
  button : Nat
  x : Int
  y : Int
  userdata : Nat
deriving DecidableEq

/-- The file-scope mutable state of `Input.c` (lines 21 to 32).  A `list_t*`
that may be `NULL` is an `Option (List _)`. -/
structure InputState where
  input_initialized : Bool
  block_keys : Bool
  show_cursor : Bool
  mouse_x : Int
  mouse_y : Int
  input_hooks : Nat → Option (List Nat)
  char_binds : Option (List KeyBind)
  key_up_binds : Option (List KeyBind)
  key_down_binds : Option (List KeyBind)
  mouse_up_binds : Option (List MouseBind)
  mouse_down_binds : Option (List MouseBind)
  mouse_move_binds : Option (List MouseBind)

/-- The state of the globals at program start (initializers of lines
21 to 32 of `Input.c`). -/
def initialState : InputState where
  input_initialized := false
  block_keys := false
  show_cursor := true
  mouse_x := 0
  mouse_y := 0
  input_hooks := fun _ => none
  char_binds := none
  key_up_binds := none
  key_down_binds := none
  mouse_up_binds := none
  mouse_down_binds := none
  mouse_move_binds := none

/-- The function input_initialize of the source.  The window handle is a
nullable pointer; a null
window is a no-op.  `list_create` yields an empty list; the platform call
has no effect on this state. -/
def input_initialize (window : Option Unit) (s : InputState) : InputState :=
  match window with
  | none => s
  | some _ =>
    { s with
      input_hooks := fun i => if i < NUM_INPUT_EVENTS then some [] else s.input_hooks i
      char_binds := some []
      key_up_binds := some []
      key_down_binds := some []
      mouse_up_binds := some []
      mouse_down_binds := some []
      mouse_move_binds := some []
      input_initialized := true }

/-- `input_shutdown`: frees every record in every collection, destroys the
collections (all list pointers become `NULL`) and clears the initialized
flag. -/
def input_shutdown (s : InputState) : InputState :=
  if !s.input_initialized then s
  else
    { s with
      input_hooks := fun i => if i < NUM_INPUT_EVENTS then none else s.input_hooks i
      char_binds := none
      key_up_binds := none
      key_down_binds := none
      mouse_up_binds := none
      mouse_down_binds := none
      mouse_move_binds := none
      input_initialized := false }

/-- `input_add_hook`: append a hook record (identified by its handler) to
the per-event-type collection.  The hook list of a valid event id is
non-null whenever the library is initialized (set by initialization), so
the `none` branch is unreachable from any reachable state. -/
def input_add_hook (event_id : INPUT_EVENT) (handler : Nat) (s : InputState) : InputState :=
  if !s.input_initialized then s
  else if NUM_INPUT_EVENTS ≤ event_id then s
  else
    match s.input_hooks event_id with
    | none => s
    | some l =>
      { s with input_hooks := fun i => if i = event_id then some (l ++ [handler]) else s.input_hooks i }

/-- The removal loop of `input_remove_hook`: remove the first record whose
handler matches, leave everything after it untouched. -/
def removeFirstHook (handler : Nat) : List Nat → List Nat
  | [] => []
  | h :: rest => if handler = h then rest else h :: removeFirstHook handler rest

/-- `input_remove_hook`: removal stops at the first matching record. -/
def input_remove_hook (event_id : INPUT_EVENT) (handler : Nat) (s : InputState) : InputState :=
  if !s.input_initialized then s
  else if NUM_INPUT_EVENTS ≤ event_id then s
  else
    match s.input_hooks event_id with
    | none => s
    | some l =>
      { s with input_hooks := fun i => if i = event_id then some (removeFirstHook handler l) else s.input_hooks i }

/-- The `switch ( type )` selecting a keyboard bind list (read side). -/
def keyListOf (type : BINDTYPE_KB) (s : InputState) : Option (List KeyBind) :=
  match type with
  | .BIND_CHAR => s.char_binds
  | .BIND_KEYUP => s.key_up_binds
  | .BIND_KEYDOWN => s.key_down_binds

/-- Writing back through the list pointer selected by the keyboard
`switch`. -/
def setKeyList (type : BINDTYPE_KB) (l : List KeyBind) (s : InputState) : InputState :=
  match type with
  | .BIND_CHAR => { s with char_binds := some l }
  | .BIND_KEYUP => { s with key_up_binds := some l }
  | .BIND_KEYDOWN => { s with key_down_binds := some l }

/-- The `switch ( type )` selecting a mouse bind list (read side). -/
def mouseListOf (type : BINDTYPE_MOUSE) (s : InputState) : Option (List MouseBind) :=
  match type with
  | .BIND_MOVE => s.mouse_move_binds
  | .BIND_BTNUP => s.mouse_up_binds
  | .BIND_BTNDOWN => s.mouse_down_binds

/-- Writing back through the list pointer selected by the mouse `switch`. -/
def setMouseList (type : BINDTYPE_MOUSE) (l : List MouseBind) (s : InputState) : InputState :=
  match type with
  | .BIND_MOVE => { s with mouse_move_binds := some l }
  | .BIND_BTNUP => { s with mouse_up_binds := some l }
  | .BIND_BTNDOWN => { s with mouse_down_binds := some l }

/-- `input_add_key_bind`: allocate a record, fill it and push it onto the
list selected by `type`; the record is returned as the handle. -/
def input_add_key_bind (key func data : Nat) (type : BINDTYPE_KB) (s : InputState) :
    InputState × Option KeyBind :=
  if !s.input_initialized then (s, none)
  else
    match keyListOf type s with
    | none => (s, none)
    | some l =>
      let bind : KeyBind := ⟨type, key, func, data⟩
      (setKeyList type (l ++ [bind]) s, some bind)

/-- `input_add_char_bind`. -/
def input_add_char_bind (key func data : Nat) (s : InputState) : InputState × Option KeyBind :=
  input_add_key_bind key func data .BIND_CHAR s

/-- `input_add_key_up_bind`. -/
def input_add_key_up_bind (key func data : Nat) (s : InputState) : InputState × Option KeyBind :=
  input_add_key_bind key func data .BIND_KEYUP s

/-- `input_add_key_down_bind`. -/
def input_add_key_down_bind (key func data : Nat) (s : InputState) : InputState × Option KeyBind :=
  input_add_key_bind key func data .BIND_KEYDOWN s

/-- `input_add_mouse_bind`. -/
def input_add_mouse_bind (button : Nat) (area : Rect) (func data : Nat)
    (type : BINDTYPE_MOUSE) (s : InputState) : InputState × Option MouseBind :=
  if !s.input_initialized then (s, none)
  else
    match mouseListOf type s with
    | none => (s, none)
    | some l =>
      let bind : MouseBind := ⟨type, area, button, func, data⟩
      (setMouseList type (l ++ [bind]) s, some bind)

/-- `input_add_mouse_move_bind`. -/
def input_add_mouse_move_bind (area : Rect) (func data : Nat) (s : InputState) :
    InputState × Option MouseBind :=
  input_add_mouse_bind MOUSE_NONE area func data .BIND_MOVE s

/-- `input_add_mousebtn_up_bind`. -/
def input_add_mousebtn_up_bind (button : Nat) (area : Rect) (func data : Nat) (s : InputState) :
    InputState × Option MouseBind :=
  input_add_mouse_bind button area func data .BIND_BTNUP s

/-- `input_add_mousebtn_down_bind`. -/
def input_add_mousebtn_down_bind (button : Nat) (area : Rect) (func data : Nat) (s : InputState) :
    InputState × Option MouseBind :=
  input_add_mouse_bind button area func data .BIND_BTNDOWN s

/-- The removal-safe loop of `input_remove_key_bind_from_list` (lines 287
to 295): every record whose key and handler both match is unlinked and
freed; all other records keep their order. -/
def removeKeyMatching (key func : Nat) : List KeyBind → List KeyBind
  | [] => []
  | b :: rest =>
    if b.key == key && b.handler == func then removeKeyMatching key func rest
    else b :: removeKeyMatching key func rest

/-- `input_remove_key_bind_from_list`: walk the list selected by `type`
removing (and freeing) every record whose key and handler both match. -/
def input_remove_key_bind_from_list (key func : Nat) (type : BINDTYPE_KB) (s : InputState) :
    InputState :=
  if !s.input_initialized then s
  else
    match keyListOf type s with
    | none => s
    | some l => setKeyList type (removeKeyMatching key func l) s

/-- `input_remove_char_bind`. -/
def input_remove_char_bind (key func : Nat) (s : InputState) : InputState :=
  input_remove_key_bind_from_list key func .BIND_CHAR s

/-- `input_remove_key_up_bind`. -/
def input_remove_key_up_bind (key func : Nat) (s : InputState) : InputState :=
  input_remove_key_bind_from_list key func .BIND_KEYUP s

/-- `input_remove_key_down_bind`. -/
def input_remove_key_down_bind (key func : Nat) (s : InputState) : InputState :=
  input_remove_key_bind_from_list key func .BIND_KEYDOWN s

/-- `input_remove_key_bind`: the C function reads `bind->key`,
`bind->handler` and `bind->type` without a null check, so a null handle has
no defined result. -/
def input_remove_key_bind (bind : Option KeyBind) (s : InputState) : Option InputState :=
  match bind with
  | none => none
  | some b => some (input_remove_key_bind_from_list b.key b.handler b.type s)

/-- The removal-safe loop of `input_remove_mouse_bind_from_list` (lines 335
to 343): every record whose button matches and whose handler does NOT match
(the comparison in the source, line 338, is `!=`) is unlinked and freed. -/
def removeMouseMatching (button func : Nat) : List MouseBind → List MouseBind
  | [] => []
  | b :: rest =>
    if b.button == button && b.handler != func then removeMouseMatching button func rest
    else b :: removeMouseMatching button func rest

/-- `input_remove_mouse_bind_from_list`: walk the list selected by `type`
removing (and freeing) every record whose button matches and whose handler
does NOT match the requested one. -/
def input_remove_mouse_bind_from_list (button func : Nat) (type : BINDTYPE_MOUSE)
    (s : InputState) : InputState :=
  if !s.input_initialized then s
  else
    match mouseListOf type s with
    | none => s
    | some l => setMouseList type (removeMouseMatching button func l) s

/-- `input_remove_mouse_move_bind`. -/
def input_remove_mouse_move_bind (func : Nat) (s : InputState) : InputState :=
  input_remove_mouse_bind_from_list MOUSE_NONE func .BIND_MOVE s

/-- `input_remove_mousebtn_up_bind`. -/
def input_remove_mousebtn_up_bind (button func : Nat) (s : InputState) : InputState :=
  input_remove_mouse_bind_from_list button func .BIND_BTNUP s

/-- `input_remove_mousebtn_down_bind`. -/
def input_remove_mousebtn_down_bind (button func : Nat) (s : InputState) : InputState :=
  input_remove_mouse_bind_from_list button func .BIND_BTNDOWN s

/-- `input_remove_mouse_bind`: reads the fields of `bind` without a null
check, so a null handle has no defined result. -/
def input_remove_mouse_bind (bind : Option MouseBind) (s : InputState) : Option InputState :=
  match bind with
  | none => none
  | some b => some (input_remove_mouse_bind_from_list b.button b.handler b.type s)

/-- `input_set_mousebind_button`: a direct field update through the handle,
guarded only by a null check; no global state is touched. -/
def input_set_mousebind_button (bind : Option MouseBind) (button : Nat) : Option MouseBind :=
  match bind with
  | none => none
  | some b => some { b with button := button }

/-- `input_set_mousebind_rect`. -/
def input_set_mousebind_rect (bind : Option MouseBind) (area : Rect) : Option MouseBind :=
  match bind with
  | none => none
  | some b => some { b with bounds := area }

/-- `input_set_mousebind_func`. -/
def input_set_mousebind_func (bind : Option MouseBind) (func : Nat) : Option MouseBind :=
  match bind with
  | none => none
  | some b => some { b with handler := func }

/-- `input_set_mousebind_param`. -/
def input_set_mousebind_param (bind : Option MouseBind) (data : Nat) : Option MouseBind :=
  match bind with
  | none => none
  | some b => some { b with userdata := data }

/-- `input_block_keys`. -/
def input_block_keys (block : Bool) (s : InputState) : InputState :=
  { s with block_keys := block }

/-- `input_is_cursor_showing`. -/
def input_is_cursor_showing (s : InputState) : Bool :=
  s.show_cursor

/-- `input_get_cursor_pos`. -/
def input_get_cursor_pos (s : InputState) : Int × Int :=
  (s.mouse_x, s.mouse_y)

/-- The hook loop shared by the two raw dispatch entry points: invoke each
hook in order with the event value; stop and report `false` as soon as one
handler returns `false`.  `henv` gives the semantics of each handler
(a hook may observe the current cursor position, which is passed along and
recorded in the trace). -/
def runHooks (henv : Nat → InputEvent → Int → Int → Bool) (ev : InputEvent) (mx my : Int) :
    List Nat → Bool × List HookCall
  | [] => (true, [])
  | h :: rest =>
    if henv h ev mx my then
      let r := runHooks henv ev mx my rest
      (r.1, ⟨h, ev, mx, my⟩ :: r.2)
    else
      (false, [⟨h, ev, mx, my⟩])

/-- `input_handle_keyboard_event`.  Returns the state (unchanged), the
propagation result, and the trace of hook invocations.  The hook list of a
valid event type is non-null whenever the library is initialized, so the
`none` branch is unreachable and behaves as the empty list. -/
def input_handle_keyboard_event (henv : Nat → InputEvent → Int → Int → Bool)
    (type key : Nat) (s : InputState) : InputState × Bool × List HookCall :=
  if !s.input_initialized then (s, true, [])
  else if NUM_INPUT_EVENTS ≤ type then (s, true, [])
  else
    match s.input_hooks type with
    | none => (s, true, [])
    | some [] => (s, true, [])
    | some (h :: t) =>
      let ev := InputEvent.keyboard type key
      let r := runHooks henv ev s.mouse_x s.mouse_y (h :: t)
      if r.1 then
        if s.block_keys then (s, false, r.2) else (s, true, r.2)
      else (s, false, r.2)

/-- `input_handle_mouse_event`.  The event value is built from the
pre-update cursor position, then the cursor position is updated, then the
hooks run (observing the updated position). -/
def input_handle_mouse_event (henv : Nat → InputEvent → Int → Int → Bool)
    (type : Nat) (x y : Int) (button wheel : Nat) (s : InputState) :
    InputState × Bool × List HookCall :=
  if !s.input_initialized then (s, true, [])
  else if NUM_INPUT_EVENTS ≤ type then (s, true, [])
  else
    match s.input_hooks type with
    | none => (s, true, [])
    | some [] => (s, true, [])
    | some (h :: t) =>
      let ev := InputEvent.mouse type x y (x - s.mouse_x) (y - s.mouse_y) (button % 256) (wheel % 256)
      let s' := { s with mouse_x := x, mouse_y := y }
      let r := runHooks henv ev s'.mouse_x s'.mouse_y (h :: t)
      (s', r.1, r.2)

/-- The loop of `input_handle_char_bind`: every record is invoked (no key
filter) and the result accumulates across all invocations. -/
def runCharBinds (kenv : Nat → Nat → Nat → Bool) (key : Nat) :
    List KeyBind → Bool × List KeyCall
  | [] => (true, [])
  | b :: rest =>
    let ok := kenv b.handler key b.userdata
    let r := runCharBinds kenv key rest
    (ok && r.1, ⟨b.handler, key, b.userdata⟩ :: r.2)

/-- The loop of `input_handle_key_down_bind` and `input_handle_key_up_bind`:
only records whose key matches are invoked; the result accumulates across
all invocations. -/
def runKeyBinds (kenv : Nat → Nat → Nat → Bool) (key : Nat) :
    List KeyBind → Bool × List KeyCall
  | [] => (true, [])
  | b :: rest =>
    if key == b.key then
      let ok := kenv b.handler key b.userdata
      let r := runKeyBinds kenv key rest
      (ok && r.1, ⟨b.handler, key, b.userdata⟩ :: r.2)
    else runKeyBinds kenv key rest

/-- `input_handle_char_bind`. -/
def input_handle_char_bind (kenv : Nat → Nat → Nat → Bool) (key : Nat) (s : InputState) :
    Bool × List KeyCall :=
  if !s.input_initialized then (true, [])
  else
    match s.char_binds with
    | none => (true, [])
    | some l => runCharBinds kenv key l

/-- `input_handle_key_down_bind`. -/
def input_handle_key_down_bind (kenv : Nat → Nat → Nat → Bool) (key : Nat) (s : InputState) :
    Bool × List KeyCall :=
  if !s.input_initialized then (true, [])
  else
    match s.key_down_binds with
    | none => (true, [])
    | some l => runKeyBinds kenv key l

/-- `input_handle_key_up_bind`. -/
def input_handle_key_up_bind (kenv : Nat → Nat → Nat → Bool) (key : Nat) (s : InputState) :
    Bool × List KeyCall :=
  if !s.input_initialized then (true, [])
  else
    match s.key_up_binds with
    | none => (true, [])
    | some l => runKeyBinds kenv key l

/-- The loop of `input_handle_mouse_move_bind`: records whose rectangle
contains the point are invoked with `MOUSE_NONE`; the result accumulates. -/
def runMouseMoveBinds (menv : Nat → Nat → Int → Int → Nat → Bool) (x y : Int) :
    List MouseBind → Bool × List MouseCall
  | [] => (true, [])
  | b :: rest =>
    if rect_is_point_in b.bounds x y then
      let ok := menv b.handler MOUSE_NONE x y b.userdata
      let r := runMouseMoveBinds menv x y rest
      (ok && r.1, ⟨b.handler, MOUSE_NONE, x, y, b.userdata⟩ :: r.2)
    else runMouseMoveBinds menv x y rest

/-- The loop shared by `input_handle_mouse_up_bind` and
`input_handle_mouse_down_bind`: records whose button matches and whose
rectangle contains the point are invoked; the result accumulates. -/
def runMouseBtnBinds (menv : Nat → Nat → Int → Int → Nat → Bool) (button : Nat) (x y : Int) :
    List MouseBind → Bool × List MouseCall
  | [] => (true, [])
  | b :: rest =>
    if b.button == button && rect_is_point_in b.bounds x y then
      let ok := menv b.handler button x y b.userdata
      let r := runMouseBtnBinds menv button x y rest
      (ok && r.1, ⟨b.handler, button, x, y, b.userdata⟩ :: r.2)
    else runMouseBtnBinds menv button x y rest

/-- `input_handle_mouse_move_bind`. -/
def input_handle_mouse_move_bind (menv : Nat → Nat → Int → Int → Nat → Bool)
    (x y : Int) (s : InputState) : Bool × List MouseCall :=
  if !s.input_initialized then (true, [])
  else
    match s.mouse_move_binds with
    | none => (true, [])
    | some l => runMouseMoveBinds menv x y l

/-- `input_handle_mouse_up_bind`. -/
def input_handle_mouse_up_bind (menv : Nat → Nat → Int → Int → Nat → Bool)
    (button : Nat) (x y : Int) (s : InputState) : Bool × List MouseCall :=
  if !s.input_initialized then (true, [])
  else
    match s.mouse_up_binds with
    | none => (true, [])
    | some l => runMouseBtnBinds menv button x y l

/-- `input_handle_mouse_down_bind`. -/
def input_handle_mouse_down_bind (menv : Nat → Nat → Int → Int → Nat → Bool)
    (button : Nat) (x y : Int) (s : InputState) : Bool × List MouseCall :=
  if !s.input_initialized then (true, [])
  else
    match s.mouse_down_binds with
    | none => (true, [])
    | some l => runMouseBtnBinds menv button x y l

/-! Concrete fixtures used to exercise the model on closed inputs. -/

/-- A concrete 10 by 10 rectangle. -/
def rect10 : Rect := ⟨0, 0, 10, 10⟩

/-- The state right after a successful initialization from startup. -/
def stInit : InputState := input_initialize (some ()) initialState

/-- Two char binds registered with the same key 13 and the same handler 5. -/
def sDup : InputState :=
  (input_add_char_bind 13 5 30 (input_add_char_bind 13 5 30 stInit).1).1

/-- Registration of a first button-down mouse bind (button 1, handler 7). -/
def sMouseA : InputState × Option MouseBind :=
  input_add_mousebtn_down_bind 1 rect10 7 51 stInit

/-- The store after a second button-down mouse bind (button 1, handler 8). -/
def sMouseB : InputState :=
  (input_add_mousebtn_down_bind 1 rect10 8 52 sMouseA.1).1

/-- A populated concrete store: three hooks for every event type and one or
more binds in every bind collection. -/
def sFix : InputState :=
  { initialState with
    input_initialized := true
    input_hooks := fun i => if i < NUM_INPUT_EVENTS then some [10, 11, 12] else none
    char_binds := some [⟨.BIND_CHAR, 13, 5, 30⟩, ⟨.BIND_CHAR, 14, 6, 31⟩]
    key_up_binds := some [⟨.BIND_KEYUP, 13, 5, 32⟩, ⟨.BIND_KEYUP, 9, 6, 35⟩]
    key_down_binds := some [⟨.BIND_KEYDOWN, 13, 5, 33⟩, ⟨.BIND_KEYDOWN, 9, 6, 34⟩]
    mouse_up_binds := some [⟨.BIND_BTNUP, rect10, 1, 7, 40⟩]
    mouse_down_binds :=
      some [⟨.BIND_BTNDOWN, rect10, 1, 7, 41⟩, ⟨.BIND_BTNDOWN, rect10, 2, 8, 42⟩,
            ⟨.BIND_BTNDOWN, rect10, 1, 9, 44⟩]
    mouse_move_binds := some [⟨.BIND_MOVE, rect10, 0, 9, 43⟩] }

/-- The populated store with the keyboard-block flag raised. -/
def sBlock : InputState := { sFix with block_keys := true }

/-- A hook environment in which every handler passes the event on. -/
def henvTrue : Nat → InputEvent → Int → Int → Bool := fun _ _ _ _ => true

/-- A hook environment in which exactly the handler `v` vetoes. -/
def henvVetoAt (v : Nat) : Nat → InputEvent → Int → Int → Bool := fun h _ _ _ => !(h == v)

/-- A key-bind handler environment in which exactly the handler `v` returns
false. -/
def kenvFalseAt (v : Nat) : Nat → Nat → Nat → Bool := fun h _ _ => !(h == v)

/-- A mouse-bind handler environment in which exactly the handler `v`
returns false. -/
def menvFalseAt (v : Nat) : Nat → Nat → Int → Int → Nat → Bool := fun h _ _ _ _ => !(h == v)

/-! Characterizations of the iteration loops. -/

/-- A boolean `all` over a list is false exactly when some element fails. -/
theorem all_eq_false_iff {α : Type} (p : α → Bool) (l : List α) :
    l.all p = false ↔ ∃ b ∈ l, p b = false := by
  induction l with
  | nil => simp
  | cons a t ih =>
    cases h : p a with
    | false =>
      constructor
      · intro _; exact ⟨a, List.mem_cons_self a t, h⟩
      · intro _; simp [List.all_cons, h]
    | true =>
      simp only [List.all_cons, h, Bool.true_and, ih, List.mem_cons]
      constructor
      · rintro ⟨b, hb, hpb⟩; exact ⟨b, Or.inr hb, hpb⟩
      · rintro ⟨b, hb | hb, hpb⟩
        · subst hb; rw [h] at hpb; exact absurd hpb (by simp)
        · exact ⟨b, hb, hpb⟩

/-- The key-bind removal loop keeps exactly the records that do not match
both the key and the handler. -/
theorem removeKeyMatching_eq_filter (key func : Nat) (l : List KeyBind) :
    removeKeyMatching key func l
      = l.filter (fun b => !(b.key == key && b.handler == func)) := by
  induction l with
  | nil => rfl
  | cons b t ih =>
    have hstep : removeKeyMatching key func (b :: t)
        = if b.key == key && b.handler == func then removeKeyMatching key func t
          else b :: removeKeyMatching key func t := rfl
    rw [hstep, List.filter_cons]
    cases h : (b.key == key && b.handler == func) <;> simp [ih]

/-- The mouse-bind removal loop keeps exactly the records that do not have
a matching button together with a NON-matching handler. -/
theorem removeMouseMatching_eq_filter (button func : Nat) (l : List MouseBind) :
    removeMouseMatching button func l
      = l.filter (fun b => !(b.button == button && b.handler != func)) := by
  induction l with
  | nil => rfl
  | cons b t ih =>
    have hstep : removeMouseMatching button func (b :: t)
        = if b.button == button && b.handler != func then removeMouseMatching button func t
          else b :: removeMouseMatching button func t := rfl
    rw [hstep, List.filter_cons]
    cases h : (b.button == button && b.handler != func) <;> simp [ih]

/-- The hook removal loop drops at most one record. -/
theorem removeFirstHook_length (handler : Nat) (l : List Nat) :
    l.length ≤ (removeFirstHook handler l).length + 1 := by
  induction l with
  | nil => simp [removeFirstHook]
  | cons h t ih =>
    by_cases hh : handler = h
    · simp [removeFirstHook, hh]
    · simp only [removeFirstHook, hh, if_false, List.length_cons]
      omega

/-- Reading back the keyboard list just written through the selected
pointer. -/
theorem keyListOf_setKeyList (type : BINDTYPE_KB) (l : List KeyBind) (s : InputState) :
    keyListOf type (setKeyList type l s) = some l := by
  cases type <;> rfl

/-- Reading back the mouse list just written through the selected
pointer. -/
theorem mouseListOf_setMouseList (type : BINDTYPE_MOUSE) (l : List MouseBind) (s : InputState) :
    mouseListOf type (setMouseList type l s) = some l := by
  cases type <;> rfl

/-- If every hook before position `k` passes and the hook at `k` vetoes,
the hook loop calls exactly the hooks up to and including `k`, in order,
and reports false. -/
theorem runHooks_veto (henv : Nat → InputEvent → Int → Int → Bool) (ev : InputEvent)
    (mx my : Int) :
    ∀ (l : List Nat) (k : Nat) (hk : k < l.length),
      (∀ i (hi : i < k), henv (l.get ⟨i, Nat.lt_trans hi hk⟩) ev mx my = true) →
      henv (l.get ⟨k, hk⟩) ev mx my = false →
      runHooks henv ev mx my l
        = (false, (l.take (k + 1)).map (fun h => ⟨h, ev, mx, my⟩)) := by
  intro l
  induction l with
  | nil => intro k hk; exact absurd hk (Nat.not_lt_zero k)
  | cons h t ih =>
    intro k hk hb hv
    cases k with
    | zero =>
      have hv2 : henv h ev mx my = false := hv
      simp [runHooks, hv2]
    | succ k =>
      have hh : henv h ev mx my = true := hb 0 (Nat.succ_pos k)
      have ih2 := ih k (Nat.lt_of_succ_lt_succ hk)
        (fun i hi => hb (i + 1) (Nat.succ_lt_succ hi)) hv
      simp [runHooks, hh, ih2]

/-- If every hook passes, the hook loop calls all of them in order and
reports true. -/
theorem runHooks_all_true (henv : Nat → InputEvent → Int → Int → Bool) (ev : InputEvent)
    (mx my : Int) :
    ∀ l : List Nat, (∀ h ∈ l, henv h ev mx my = true) →
      runHooks henv ev mx my l = (true, l.map (fun h => ⟨h, ev, mx, my⟩)) := by
  intro l
  induction l with
  | nil => intro; rfl
  | cons h t ih =>
    intro hall
    have hh := hall h (List.mem_cons_self h t)
    have ih2 := ih (fun x hx => hall x (List.mem_cons_of_mem h hx))
    simp [runHooks, hh, ih2]

/-- Every call recorded by the hook loop carries the event value and the
cursor position the loop was given. -/
theorem runHooks_mem (henv : Nat → InputEvent → Int → Int → Bool) (ev : InputEvent)
    (mx my : Int) :
    ∀ (l : List Nat) (c : HookCall), c ∈ (runHooks henv ev mx my l).2 →
      c.event = ev ∧ c.seen_x = mx ∧ c.seen_y = my := by
  intro l
  induction l with
  | nil => intro c hc; simp [runHooks] at hc
  | cons h t ih =>
    intro c hc
    by_cases hh : henv h ev mx my = true
    · simp only [runHooks, hh, if_true, List.mem_cons] at hc
      rcases hc with hc | hc
      · subst hc; exact ⟨rfl, rfl, rfl⟩
      · exact ih c hc
    · rw [Bool.not_eq_true] at hh
      simp only [runHooks, hh, Bool.false_eq_true, if_false, List.mem_cons,
        List.not_mem_nil, or_false] at hc
      subst hc; exact ⟨rfl, rfl, rfl⟩

/-- The char-bind loop invokes every record and conjoins all results. -/
theorem runCharBinds_eq (kenv : Nat → Nat → Nat → Bool) (key : Nat) (l : List KeyBind) :
    runCharBinds kenv key l
      = (l.all (fun b => kenv b.handler key b.userdata),
         l.map (fun b => ⟨b.handler, key, b.userdata⟩)) := by
  induction l with
  | nil => rfl
  | cons b t ih => simp [runCharBinds, ih, List.all_cons]

/-- The key-bind loop invokes exactly the records whose key matches and
conjoins their results. -/
theorem runKeyBinds_eq (kenv : Nat → Nat → Nat → Bool) (key : Nat) (l : List KeyBind) :
    runKeyBinds kenv key l
      = ((l.filter (fun b => key == b.key)).all (fun b => kenv b.handler key b.userdata),
         (l.filter (fun b => key == b.key)).map (fun b => ⟨b.handler, key, b.userdata⟩)) := by
  induction l with
  | nil => rfl
  | cons b t ih =>
    cases hk : (key == b.key) <;> simp [runKeyBinds, List.filter_cons, hk, ih]

/-- The mouse-move loop invokes exactly the records whose rectangle
contains the point and conjoins their results. -/
theorem runMouseMoveBinds_eq (menv : Nat → Nat → Int → Int → Nat → Bool) (x y : Int)
    (l : List MouseBind) :
    runMouseMoveBinds menv x y l
      = ((l.filter (fun b => rect_is_point_in b.bounds x y)).all
           (fun b => menv b.handler MOUSE_NONE x y b.userdata),
         (l.filter (fun b => rect_is_point_in b.bounds x y)).map
           (fun b => ⟨b.handler, MOUSE_NONE, x, y, b.userdata⟩)) := by
  induction l with
  | nil => rfl
  | cons b t ih =>
    cases hk : rect_is_point_in b.bounds x y <;>
      simp [runMouseMoveBinds, List.filter_cons, hk, ih]

/-- The mouse-button loop invokes exactly the records whose button matches
and whose rectangle contains the point, and conjoins their results. -/
theorem runMouseBtnBinds_eq (menv : Nat → Nat → Int → Int → Nat → Bool) (button : Nat)
    (x y : Int) (l : List MouseBind) :
    runMouseBtnBinds menv button x y l
      = ((l.filter (fun b => b.button == button && rect_is_point_in b.bounds x y)).all
           (fun b => menv b.handler button x y b.userdata),
         (l.filter (fun b => b.button == button && rect_is_point_in b.bounds x y)).map
           (fun b => ⟨b.handler, button, x, y, b.userdata⟩)) := by
  induction l with
  | nil => rfl
  | cons b t ih =>
    cases hk : (b.button == button && rect_is_point_in b.bounds x y) <;>
      simp [runMouseBtnBinds, List.filter_cons, hk, ih]

/-! Claim theorems. -/

/-- Claim C1: the bulk mouse-bind removal routine
(`input_remove_mouse_bind_from_list`, reached via
`input_remove_mouse_move_bind`, `input_remove_mousebtn_up_bind`,
`input_remove_mousebtn_down_bind` and `input_remove_mouse_bind`) removes,
from the selected collection, exactly those records whose stored button
equals the requested button and whose stored handler is NOT equal to the
requested handler, whereas the keyboard removal routine removes exactly
those records whose stored key AND handler both equal the requested
ones. -/
theorem claim_C1 (s : InputState) (button func key kfunc : Nat)
    (mt : BINDTYPE_MOUSE) (kt : BINDTYPE_KB)
    (ml : List MouseBind) (kl : List KeyBind)
    (hinit : s.input_initialized = true)
    (hml : mouseListOf mt s = some ml) (hkl : keyListOf kt s = some kl) :
    mouseListOf mt (input_remove_mouse_bind_from_list button func mt s)
      = some (ml.filter (fun b => !(b.button == button && b.handler != func)))
  ∧ keyListOf kt (input_remove_key_bind_from_list key kfunc kt s)
      = some (kl.filter (fun b => !(b.key == key && b.handler == kfunc)))
  ∧ input_remove_mouse_move_bind func s
      = input_remove_mouse_bind_from_list MOUSE_NONE func .BIND_MOVE s
  ∧ input_remove_mousebtn_up_bind button func s
      = input_remove_mouse_bind_from_list button func .BIND_BTNUP s
  ∧ input_remove_mousebtn_down_bind button func s
      = input_remove_mouse_bind_from_list button func .BIND_BTNDOWN s
  ∧ (∀ b : MouseBind, input_remove_mouse_bind (some b) s
      = some (input_remove_mouse_bind_from_list b.button b.handler b.type s)) := by
  refine ⟨?_, ?_, rfl, rfl, rfl, fun b => rfl⟩
  · simp [input_remove_mouse_bind_from_list, hinit, hml, mouseListOf_setMouseList,
      removeMouseMatching_eq_filter]
  · simp [input_remove_key_bind_from_list, hinit, hkl, keyListOf_setKeyList,
      removeKeyMatching_eq_filter]

/-- Witness for C1 on the populated store: removing (button 1, handler 7)
from the button-down collection removes only the record with button 1 and
the OTHER handler 9, keeping the record whose handler is the requested 7;
removing (key 13, handler 5) from the char collection removes exactly the
matching record. -/
theorem claim_C1_witness :
    mouseListOf .BIND_BTNDOWN (input_remove_mouse_bind_from_list 1 7 .BIND_BTNDOWN sFix)
      = some [⟨.BIND_BTNDOWN, rect10, 1, 7, 41⟩, ⟨.BIND_BTNDOWN, rect10, 2, 8, 42⟩]
  ∧ keyListOf .BIND_CHAR (input_remove_key_bind_from_list 13 5 .BIND_CHAR sFix)
      = some [⟨.BIND_CHAR, 14, 6, 31⟩] := by
  have h := claim_C1 sFix 1 7 13 5 .BIND_BTNDOWN .BIND_CHAR
    [⟨.BIND_BTNDOWN, rect10, 1, 7, 41⟩, ⟨.BIND_BTNDOWN, rect10, 2, 8, 42⟩,
     ⟨.BIND_BTNDOWN, rect10, 1, 9, 44⟩]
    [⟨.BIND_CHAR, 13, 5, 30⟩, ⟨.BIND_CHAR, 14, 6, 31⟩] rfl rfl rfl
  exact ⟨h.1.trans (by decide), h.2.1.trans (by decide)⟩

/-- Claim C2 is false on the code at a concrete reachable store: two char
binds registered with the same key 13 and handler 5 are BOTH removed and
freed by the single call `input_remove_char_bind 13 5` (two records, not at
most one); and removing a button-down mouse bind by its handle removes the
OTHER record of the same button (handler 8) while the referenced record
(handler 7) survives, so the record freed is not the one matching the
handle. -/
theorem claim_C2_counterexample :
    sDup.char_binds.map List.length = some 2
  ∧ (input_remove_char_bind 13 5 sDup).char_binds.map List.length = some 0
  ∧ (input_remove_mouse_bind sMouseA.2 sMouseB).map InputState.mouse_down_binds
      = some (some [⟨.BIND_BTNDOWN, rect10, 1, 7, 51⟩]) := by
  exact ⟨by decide, by decide, by decide⟩

/-- Claim C2 (amended): removal is not one-record-per-call.  Hook removal
removes at most one record (the first whose handler matches).  Keyboard
bind removal removes every record whose (key, handler) pair equals the
requested one, possibly several.  Mouse bind removal removes every record
whose button equals the requested one and whose handler differs from it.
Removal by handle delegates to these bulk routines with the fields stored
in the handle. -/
theorem claim_C2_amended (s : InputState) (e handler key func button : Nat)
    (kt : BINDTYPE_KB) (mt : BINDTYPE_MOUSE) (hl : List Nat)
    (kl : List KeyBind) (ml : List MouseBind)
    (hinit : s.input_initialized = true) (he : e < NUM_INPUT_EVENTS)
    (hhl : s.input_hooks e = some hl) (hkl : keyListOf kt s = some kl)
    (hml : mouseListOf mt s = some ml) :
    (input_remove_hook e handler s).input_hooks e = some (removeFirstHook handler hl)
  ∧ hl.length ≤ (removeFirstHook handler hl).length + 1
  ∧ keyListOf kt (input_remove_key_bind_from_list key func kt s)
      = some (kl.filter (fun b => !(b.key == key && b.handler == func)))
  ∧ mouseListOf mt (input_remove_mouse_bind_from_list button func mt s)
      = some (ml.filter (fun b => !(b.button == button && b.handler != func)))
  ∧ (∀ b : KeyBind, input_remove_key_bind (some b) s
      = some (input_remove_key_bind_from_list b.key b.handler b.type s))
  ∧ (∀ b : MouseBind, input_remove_mouse_bind (some b) s
      = some (input_remove_mouse_bind_from_list b.button b.handler b.type s)) := by
  refine ⟨?_, removeFirstHook_length handler hl, ?_, ?_, fun b => rfl, fun b => rfl⟩
  · have hne : ¬ NUM_INPUT_EVENTS ≤ e := Nat.not_le.mpr he
    simp [input_remove_hook, hinit, hne, hhl]
  · simp [input_remove_key_bind_from_list, hinit, hkl, keyListOf_setKeyList,
      removeKeyMatching_eq_filter]
  · simp [input_remove_mouse_bind_from_list, hinit, hml, mouseListOf_setMouseList,
      removeMouseMatching_eq_filter]

/-- Witness for the amended C2 on the populated store: removing handler 11
from the hooks of event 0 drops exactly the first (and only) matching hook
record. -/
theorem claim_C2_amended_witness :
    (input_remove_hook 0 11 sFix).input_hooks 0 = some [10, 12]
  ∧ keyListOf .BIND_KEYDOWN (input_remove_key_bind_from_list 13 5 .BIND_KEYDOWN sFix)
      = some [⟨.BIND_KEYDOWN, 9, 6, 34⟩] := by
  have h := claim_C2_amended sFix 0 11 13 5 1 .BIND_KEYDOWN .BIND_BTNUP [10, 11, 12]
    [⟨.BIND_KEYDOWN, 13, 5, 33⟩, ⟨.BIND_KEYDOWN, 9, 6, 34⟩]
    [⟨.BIND_BTNUP, rect10, 1, 7, 40⟩] rfl (by decide) rfl rfl rfl
  exact ⟨h.1.trans (by decide), h.2.2.1.trans (by decide)⟩

/-- Claim C3: for an initialized system, a known event type and hooks `l`,
if hook `k` is the first hook (in registration order) to return false, then
the dispatch (keyboard respectively mouse) invokes hooks `0..k` exactly
once each in registration order, never invokes the hooks after `k`, and
returns false. -/
theorem claim_C3 (henv : Nat → InputEvent → Int → Int → Bool) (s : InputState)
    (type key : Nat) (x y : Int) (button wheel : Nat) (l : List Nat) (k : Nat)
    (hinit : s.input_initialized = true) (htype : type < NUM_INPUT_EVENTS)
    (hl : s.input_hooks type = some l) (hk : k < l.length) :
    ((∀ i (hi : i < k),
        henv (l.get ⟨i, Nat.lt_trans hi hk⟩) (InputEvent.keyboard type key)
          s.mouse_x s.mouse_y = true) →
      henv (l.get ⟨k, hk⟩) (InputEvent.keyboard type key) s.mouse_x s.mouse_y = false →
      input_handle_keyboard_event henv type key s
        = (s, false, (l.take (k + 1)).map
            (fun h => ⟨h, InputEvent.keyboard type key, s.mouse_x, s.mouse_y⟩)))
  ∧ ((∀ i (hi : i < k),
        henv (l.get ⟨i, Nat.lt_trans hi hk⟩)
          (InputEvent.mouse type x y (x - s.mouse_x) (y - s.mouse_y) (button % 256) (wheel % 256))
          x y = true) →
      henv (l.get ⟨k, hk⟩)
        (InputEvent.mouse type x y (x - s.mouse_x) (y - s.mouse_y) (button % 256) (wheel % 256))
        x y = false →
      input_handle_mouse_event henv type x y button wheel s
        = ({ s with mouse_x := x, mouse_y := y }, false, (l.take (k + 1)).map
            (fun h => ⟨h, InputEvent.mouse type x y (x - s.mouse_x) (y - s.mouse_y)
                          (button % 256) (wheel % 256), x, y⟩))) := by
  have hne : ¬ NUM_INPUT_EVENTS ≤ type := Nat.not_le.mpr htype
  cases l with
  | nil => exact absurd hk (Nat.not_lt_zero k)
  | cons h0 t =>
    constructor
    · intro hb hv
      have hrun := runHooks_veto henv (InputEvent.keyboard type key) s.mouse_x s.mouse_y
        (h0 :: t) k hk hb hv
      simp [input_handle_keyboard_event, hinit, hne, hl, hrun]
    · intro hb hv
      have hrun := runHooks_veto henv
        (InputEvent.mouse type x y (x - s.mouse_x) (y - s.mouse_y) (button % 256) (wheel % 256))
        x y (h0 :: t) k hk hb hv
      simp [input_handle_mouse_event, hinit, hne, hl, hrun]

/-- Witness for C3 on the populated store (hooks 10, 11, 12; hook 11 is the
first to veto, so k = 1): hooks 10 and 11 run once each in order, hook 12
never runs, and both dispatches return false. -/
theorem claim_C3_witness :
    input_handle_keyboard_event (henvVetoAt 11) 2 13 sFix
      = (sFix, false, ([10, 11, 12].take 2).map
          (fun h => ⟨h, InputEvent.keyboard 2 13, sFix.mouse_x, sFix.mouse_y⟩))
  ∧ (input_handle_keyboard_event (henvVetoAt 11) 2 13 sFix).2
      = (false, [⟨10, InputEvent.keyboard 2 13, 0, 0⟩, ⟨11, InputEvent.keyboard 2 13, 0, 0⟩])
  ∧ input_handle_mouse_event (henvVetoAt 11) 2 3 4 1 0 sFix
      = ({ sFix with mouse_x := 3, mouse_y := 4 }, false, ([10, 11, 12].take 2).map
          (fun h => ⟨h, InputEvent.mouse 2 3 4 (3 - sFix.mouse_x) (4 - sFix.mouse_y)
                        (1 % 256) (0 % 256), 3, 4⟩))
  ∧ (input_handle_mouse_event (henvVetoAt 11) 2 3 4 1 0 sFix).2
      = (false, [⟨10, InputEvent.mouse 2 3 4 3 4 1 0, 3, 4⟩,
                 ⟨11, InputEvent.mouse 2 3 4 3 4 1 0, 3, 4⟩]) := by
  have h := claim_C3 (henvVetoAt 11) sFix 2 13 3 4 1 0 [10, 11, 12] 1 rfl (by decide)
    rfl (by decide)
  have h1 := h.1 (fun i hi => by interval_cases i; rfl) (by rfl)
  have h2 := h.2 (fun i hi => by interval_cases i; rfl) (by rfl)
  exact ⟨h1, by rw [h1]; decide, h2, by rw [h2]; decide⟩

/-- Claim C4: none of the six bind-dispatch entry points short-circuits:
every matching bind in the collection is invoked regardless of earlier
handler results, and the returned boolean is false exactly when at least
one invoked handler returned false (true when no bind matches). -/
theorem claim_C4 (kenv : Nat → Nat → Nat → Bool) (menv : Nat → Nat → Int → Int → Nat → Bool)
    (s : InputState) (key button : Nat) (x y : Int)
    (cl dl ul : List KeyBind) (ml upl dnl : List MouseBind)
    (hinit : s.input_initialized = true)
    (hc : s.char_binds = some cl) (hd : s.key_down_binds = some dl)
    (hu : s.key_up_binds = some ul) (hm : s.mouse_move_binds = some ml)
    (hup : s.mouse_up_binds = some upl) (hdn : s.mouse_down_binds = some dnl) :
    input_handle_char_bind kenv key s
      = (cl.all (fun b => kenv b.handler key b.userdata),
         cl.map (fun b => ⟨b.handler, key, b.userdata⟩))
  ∧ ((input_handle_char_bind kenv key s).1 = false ↔
      ∃ b ∈ cl, kenv b.handler key b.userdata = false)
  ∧ input_handle_key_down_bind kenv key s
      = ((dl.filter (fun b => key == b.key)).all (fun b => kenv b.handler key b.userdata),
         (dl.filter (fun b => key == b.key)).map (fun b => ⟨b.handler, key, b.userdata⟩))
  ∧ ((input_handle_key_down_bind kenv key s).1 = false ↔
      ∃ b ∈ dl.filter (fun b => key == b.key), kenv b.handler key b.userdata = false)
  ∧ input_handle_key_up_bind kenv key s
      = ((ul.filter (fun b => key == b.key)).all (fun b => kenv b.handler key b.userdata),
         (ul.filter (fun b => key == b.key)).map (fun b => ⟨b.handler, key, b.userdata⟩))
  ∧ ((input_handle_key_up_bind kenv key s).1 = false ↔
      ∃ b ∈ ul.filter (fun b => key == b.key), kenv b.handler key b.userdata = false)
  ∧ input_handle_mouse_move_bind menv x y s
      = ((ml.filter (fun b => rect_is_point_in b.bounds x y)).all
           (fun b => menv b.handler MOUSE_NONE x y b.userdata),
         (ml.filter (fun b => rect_is_point_in b.bounds x y)).map
           (fun b => ⟨b.handler, MOUSE_NONE, x, y, b.userdata⟩))
  ∧ ((input_handle_mouse_move_bind menv x y s).1 = false ↔
      ∃ b ∈ ml.filter (fun b => rect_is_point_in b.bounds x y),
        menv b.handler MOUSE_NONE x y b.userdata = false)
  ∧ input_handle_mouse_up_bind menv button x y s
      = ((upl.filter (fun b => b.button == button && rect_is_point_in b.bounds x y)).all
           (fun b => menv b.handler button x y b.userdata),
         (upl.filter (fun b => b.button == button && rect_is_point_in b.bounds x y)).map
           (fun b => ⟨b.handler, button, x, y, b.userdata⟩))
  ∧ ((input_handle_mouse_up_bind menv button x y s).1 = false ↔
      ∃ b ∈ upl.filter (fun b => b.button == button && rect_is_point_in b.bounds x y),
        menv b.handler button x y b.userdata = false)
  ∧ input_handle_mouse_down_bind menv button x y s
      = ((dnl.filter (fun b => b.button == button && rect_is_point_in b.bounds x y)).all
           (fun b => menv b.handler button x y b.userdata),
         (dnl.filter (fun b => b.button == button && rect_is_point_in b.bounds x y)).map
           (fun b => ⟨b.handler, button, x, y, b.userdata⟩))
  ∧ ((input_handle_mouse_down_bind menv button x y s).1 = false ↔
      ∃ b ∈ dnl.filter (fun b => b.button == button && rect_is_point_in b.bounds x y),
        menv b.handler button x y b.userdata = false) := by
  have h1 : input_handle_char_bind kenv key s
      = (cl.all (fun b => kenv b.handler key b.userdata),
         cl.map (fun b => ⟨b.handler, key, b.userdata⟩)) := by
    simp [input_handle_char_bind, hinit, hc, runCharBinds_eq]
  have h2 : input_handle_key_down_bind kenv key s
      = ((dl.filter (fun b => key == b.key)).all (fun b => kenv b.handler key b.userdata),
         (dl.filter (fun b => key == b.key)).map (fun b => ⟨b.handler, key, b.userdata⟩)) := by
    simp [input_handle_key_down_bind, hinit, hd, runKeyBinds_eq]
  have h3 : input_handle_key_up_bind kenv key s
      = ((ul.filter (fun b => key == b.key)).all (fun b => kenv b.handler key b.userdata),
         (ul.filter (fun b => key == b.key)).map (fun b => ⟨b.handler, key, b.userdata⟩)) := by
    simp [input_handle_key_up_bind, hinit, hu, runKeyBinds_eq]
  have h4 : input_handle_mouse_move_bind menv x y s
      = ((ml.filter (fun b => rect_is_point_in b.bounds x y)).all
           (fun b => menv b.handler MOUSE_NONE x y b.userdata),
         (ml.filter (fun b => rect_is_point_in b.bounds x y)).map
           (fun b => ⟨b.handler, MOUSE_NONE, x, y, b.userdata⟩)) := by
    simp [input_handle_mouse_move_bind, hinit, hm, runMouseMoveBinds_eq]
  have h5 : input_handle_mouse_up_bind menv button x y s
      = ((upl.filter (fun b => b.button == button && rect_is_point_in b.bounds x y)).all
           (fun b => menv b.handler button x y b.userdata),
         (upl.filter (fun b => b.button == button && rect_is_point_in b.bounds x y)).map
           (fun b => ⟨b.handler, button, x, y, b.userdata⟩)) := by
    simp [input_handle_mouse_up_bind, hinit, hup, runMouseBtnBinds_eq]
  have h6 : input_handle_mouse_down_bind menv button x y s
      = ((dnl.filter (fun b => b.button == button && rect_is_point_in b.bounds x y)).all
           (fun b => menv b.handler button x y b.userdata),
         (dnl.filter (fun b => b.button == button && rect_is_point_in b.bounds x y)).map
           (fun b => ⟨b.handler, button, x, y, b.userdata⟩)) := by
    simp [input_handle_mouse_down_bind, hinit, hdn, runMouseBtnBinds_eq]
  refine ⟨h1, ?_, h2, ?_, h3, ?_, h4, ?_, h5, ?_, h6, ?_⟩
  · rw [h1]; exact all_eq_false_iff _ _
  · rw [h2]; exact all_eq_false_iff _ _
  · rw [h3]; exact all_eq_false_iff _ _
  · rw [h4]; exact all_eq_false_iff _ _
  · rw [h5]; exact all_eq_false_iff _ _
  · rw [h6]; exact all_eq_false_iff _ _

/-- Witness for C4 on the populated store, with handler 5 (keyboard) and
handler 7 (mouse) returning false: every matching bind is still invoked
after a false result (see the char and button-down traces, which continue
past the failing handler) and the accumulated results are as claimed. -/
theorem claim_C4_witness :
    input_handle_char_bind (kenvFalseAt 5) 13 sFix
      = (false, [⟨5, 13, 30⟩, ⟨6, 13, 31⟩])
  ∧ input_handle_key_down_bind (kenvFalseAt 5) 13 sFix = (false, [⟨5, 13, 33⟩])
  ∧ input_handle_key_up_bind (kenvFalseAt 5) 13 sFix = (false, [⟨5, 13, 32⟩])
  ∧ input_handle_mouse_move_bind (menvFalseAt 7) 3 4 sFix
      = (true, [⟨9, MOUSE_NONE, 3, 4, 43⟩])
  ∧ input_handle_mouse_up_bind (menvFalseAt 7) 1 3 4 sFix = (false, [⟨7, 1, 3, 4, 40⟩])
  ∧ input_handle_mouse_down_bind (menvFalseAt 7) 1 3 4 sFix
      = (false, [⟨7, 1, 3, 4, 41⟩, ⟨9, 1, 3, 4, 44⟩]) := by
  obtain ⟨a1, -, a2, -, a3, -, a4, -, a5, -, a6, -⟩ :=
    claim_C4 (kenvFalseAt 5) (menvFalseAt 7) sFix 13 1 3 4
      [⟨.BIND_CHAR, 13, 5, 30⟩, ⟨.BIND_CHAR, 14, 6, 31⟩]
      [⟨.BIND_KEYDOWN, 13, 5, 33⟩, ⟨.BIND_KEYDOWN, 9, 6, 34⟩]
      [⟨.BIND_KEYUP, 13, 5, 32⟩, ⟨.BIND_KEYUP, 9, 6, 35⟩]
      [⟨.BIND_MOVE, rect10, 0, 9, 43⟩]
      [⟨.BIND_BTNUP, rect10, 1, 7, 40⟩]
      [⟨.BIND_BTNDOWN, rect10, 1, 7, 41⟩, ⟨.BIND_BTNDOWN, rect10, 2, 8, 42⟩,
       ⟨.BIND_BTNDOWN, rect10, 1, 9, 44⟩]
      rfl rfl rfl rfl rfl rfl rfl
  exact ⟨a1.trans (by decide), a2.trans (by decide), a3.trans (by decide),
         a4.trans (by decide), a5.trans (by decide), a6.trans (by decide)⟩

/-- Membership in a filtered-then-mapped list, phrased over the original
list. -/
theorem mem_filter_map_iff {α β : Type} (p : α → Bool) (f : α → β) (L : List α) (c : β) :
    c ∈ (L.filter p).map f ↔ ∃ b ∈ L, p b = true ∧ c = f b := by
  constructor
  · intro hcm
    rcases List.mem_map.mp hcm with ⟨b, hbf, hfb⟩
    rcases List.mem_filter.mp hbf with ⟨hbL, hp⟩
    exact ⟨b, hbL, hp, hfb.symm⟩
  · rintro ⟨b, hbL, hp, hc⟩
    exact List.mem_map.mpr ⟨b, List.mem_filter.mpr ⟨hbL, hp⟩, hc.symm⟩

/-- Claim C5: with the keyboard-block flag set, the keyboard dispatch
returns false whenever at least one hook exists for the known event type,
regardless of hook results; with the flag clear and all hooks passing, it
returns true. -/
theorem claim_C5 (henv : Nat → InputEvent → Int → Int → Bool) (s : InputState)
    (type key : Nat) (h0 : Nat) (t : List Nat)
    (hinit : s.input_initialized = true) (htype : type < NUM_INPUT_EVENTS)
    (hl : s.input_hooks type = some (h0 :: t)) :
    (s.block_keys = true → (input_handle_keyboard_event henv type key s).2.1 = false)
  ∧ (s.block_keys = false →
      (∀ h ∈ h0 :: t, henv h (InputEvent.keyboard type key) s.mouse_x s.mouse_y = true) →
      (input_handle_keyboard_event henv type key s).2.1 = true) := by
  have hne : ¬ NUM_INPUT_EVENTS ≤ type := Nat.not_le.mpr htype
  constructor
  · intro hb
    cases hr : (runHooks henv (InputEvent.keyboard type key) s.mouse_x s.mouse_y (h0 :: t)).1 <;>
      simp [input_handle_keyboard_event, hinit, hne, hl, hb, hr]
  · intro hb hall
    have hrun := runHooks_all_true henv (InputEvent.keyboard type key) s.mouse_x s.mouse_y
      (h0 :: t) hall
    simp [input_handle_keyboard_event, hinit, hne, hl, hb, hrun]

/-- Witness for C5: on the blocked store the dispatch reports false even
though a hook vetoes mid-chain; on the unblocked store with all hooks
passing it reports true. -/
theorem claim_C5_witness :
    (input_handle_keyboard_event (henvVetoAt 11) 2 13 sBlock).2.1 = false
  ∧ (input_handle_keyboard_event henvTrue 2 13 sFix).2.1 = true := by
  have ha := (claim_C5 (henvVetoAt 11) sBlock 2 13 10 [11, 12] rfl (by decide) rfl).1 rfl
  have hb := (claim_C5 henvTrue sFix 2 13 10 [11, 12] rfl (by decide) rfl).2 rfl
    (fun h hh => rfl)
  exact ⟨ha, hb⟩

/-- Claim C6: when hooks are invoked at all, the mouse dispatch updates the
stored cursor position to (x, y) before any hook runs (every invoked hook
observes the updated position, and the position is updated even when the
first hook vetoes), while the dispatched event carries dx and dy computed
from the pre-update position. -/
theorem claim_C6 (henv : Nat → InputEvent → Int → Int → Bool) (s : InputState)
    (type : Nat) (x y : Int) (button wheel : Nat) (h0 : Nat) (t : List Nat)
    (hinit : s.input_initialized = true) (htype : type < NUM_INPUT_EVENTS)
    (hl : s.input_hooks type = some (h0 :: t)) :
    (input_handle_mouse_event henv type x y button wheel s).1.mouse_x = x
  ∧ (input_handle_mouse_event henv type x y button wheel s).1.mouse_y = y
  ∧ ∀ c ∈ (input_handle_mouse_event henv type x y button wheel s).2.2,
      c.seen_x = x ∧ c.seen_y = y
      ∧ c.event = InputEvent.mouse type x y (x - s.mouse_x) (y - s.mouse_y)
          (button % 256) (wheel % 256) := by
  have hne : ¬ NUM_INPUT_EVENTS ≤ type := Nat.not_le.mpr htype
  have hred : input_handle_mouse_event henv type x y button wheel s
      = ({ s with mouse_x := x, mouse_y := y },
         runHooks henv (InputEvent.mouse type x y (x - s.mouse_x) (y - s.mouse_y)
           (button % 256) (wheel % 256)) x y (h0 :: t)) := by
    simp [input_handle_mouse_event, hinit, hne, hl]
  refine ⟨by rw [hred], by rw [hred], ?_⟩
  intro c hc
  rw [hred] at hc
  have hm := runHooks_mem henv
    (InputEvent.mouse type x y (x - s.mouse_x) (y - s.mouse_y) (button % 256) (wheel % 256))
    x y (h0 :: t) c hc
  exact ⟨hm.2.1, hm.2.2, hm.1⟩

/-- Witness for C6 on the populated store (cursor starts at (0,0)): after
dispatching a move to (3,4), the stored position is (3,4) and every hook
saw position (3,4) and an event with dx = 3 and dy = 4. -/
theorem claim_C6_witness :
    (input_handle_mouse_event henvTrue 2 3 4 1 0 sFix).1.mouse_x = 3
  ∧ (input_handle_mouse_event henvTrue 2 3 4 1 0 sFix).1.mouse_y = 4
  ∧ (input_handle_mouse_event henvTrue 2 3 4 1 0 sFix).2.2
      = [⟨10, InputEvent.mouse 2 3 4 3 4 1 0, 3, 4⟩,
         ⟨11, InputEvent.mouse 2 3 4 3 4 1 0, 3, 4⟩,
         ⟨12, InputEvent.mouse 2 3 4 3 4 1 0, 3, 4⟩] := by
  have h := claim_C6 henvTrue sFix 2 3 4 1 0 10 [11, 12] rfl (by decide) rfl
  exact ⟨h.1, h.2.1, by decide⟩

/-- Claim C7: a bind is invoked exactly when its selector matches the
input: key-down and key-up binds fire exactly when the stored key equals
the input key, char binds fire on every char dispatch with no key filter,
mouse-move binds fire exactly when (x, y) lies in the bind rectangle
(button ignored), mouse-button binds fire exactly when the stored button
equals the dispatched button and (x, y) lies in the rectangle (inclusive of
edges); every invoked handler receives the userdata stored at
registration. -/
theorem claim_C7 (kenv : Nat → Nat → Nat → Bool) (menv : Nat → Nat → Int → Int → Nat → Bool)
    (s : InputState) (key button : Nat) (x y : Int) (r : Rect)
    (cl dl ul : List KeyBind) (ml upl dnl : List MouseBind)
    (hinit : s.input_initialized = true)
    (hc : s.char_binds = some cl) (hd : s.key_down_binds = some dl)
    (hu : s.key_up_binds = some ul) (hm : s.mouse_move_binds = some ml)
    (hup : s.mouse_up_binds = some upl) (hdn : s.mouse_down_binds = some dnl) :
    (∀ c : KeyCall, c ∈ (input_handle_key_down_bind kenv key s).2 ↔
       ∃ b ∈ dl, key = b.key ∧ c = ⟨b.handler, key, b.userdata⟩)
  ∧ (∀ c : KeyCall, c ∈ (input_handle_key_up_bind kenv key s).2 ↔
       ∃ b ∈ ul, key = b.key ∧ c = ⟨b.handler, key, b.userdata⟩)
  ∧ (∀ c : KeyCall, c ∈ (input_handle_char_bind kenv key s).2 ↔
       ∃ b ∈ cl, c = ⟨b.handler, key, b.userdata⟩)
  ∧ (∀ c : MouseCall, c ∈ (input_handle_mouse_move_bind menv x y s).2 ↔
       ∃ b ∈ ml, rect_is_point_in b.bounds x y = true
         ∧ c = ⟨b.handler, MOUSE_NONE, x, y, b.userdata⟩)
  ∧ (∀ c : MouseCall, c ∈ (input_handle_mouse_up_bind menv button x y s).2 ↔
       ∃ b ∈ upl, b.button = button ∧ rect_is_point_in b.bounds x y = true
         ∧ c = ⟨b.handler, button, x, y, b.userdata⟩)
  ∧ (∀ c : MouseCall, c ∈ (input_handle_mouse_down_bind menv button x y s).2 ↔
       ∃ b ∈ dnl, b.button = button ∧ rect_is_point_in b.bounds x y = true
         ∧ c = ⟨b.handler, button, x, y, b.userdata⟩)
  ∧ (rect_is_point_in r x y = true ↔ r.x1 ≤ x ∧ x ≤ r.x2 ∧ r.y1 ≤ y ∧ y ≤ r.y2)
  ∧ (∀ f d kt, (input_add_key_bind key f d kt s).2 = some ⟨kt, key, f, d⟩)
  ∧ (∀ f d mt area, (input_add_mouse_bind button area f d mt s).2
       = some ⟨mt, area, button, f, d⟩) := by
  have hkd : (input_handle_key_down_bind kenv key s).2
      = (dl.filter (fun b => key == b.key)).map
          (fun b => (⟨b.handler, key, b.userdata⟩ : KeyCall)) := by
    simp [input_handle_key_down_bind, hinit, hd, runKeyBinds_eq]
  have hku : (input_handle_key_up_bind kenv key s).2
      = (ul.filter (fun b => key == b.key)).map
          (fun b => (⟨b.handler, key, b.userdata⟩ : KeyCall)) := by
    simp [input_handle_key_up_bind, hinit, hu, runKeyBinds_eq]
  have hch : (input_handle_char_bind kenv key s).2
      = cl.map (fun b => (⟨b.handler, key, b.userdata⟩ : KeyCall)) := by
    simp [input_handle_char_bind, hinit, hc, runCharBinds_eq]
  have hmv : (input_handle_mouse_move_bind menv x y s).2
      = (ml.filter (fun b => rect_is_point_in b.bounds x y)).map
          (fun b => (⟨b.handler, MOUSE_NONE, x, y, b.userdata⟩ : MouseCall)) := by
    simp [input_handle_mouse_move_bind, hinit, hm, runMouseMoveBinds_eq]
  have hmu : (input_handle_mouse_up_bind menv button x y s).2
      = (upl.filter (fun b => b.button == button && rect_is_point_in b.bounds x y)).map
          (fun b => (⟨b.handler, button, x, y, b.userdata⟩ : MouseCall)) := by
    simp [input_handle_mouse_up_bind, hinit, hup, runMouseBtnBinds_eq]
  have hmd : (input_handle_mouse_down_bind menv button x y s).2
      = (dnl.filter (fun b => b.button == button && rect_is_point_in b.bounds x y)).map
          (fun b => (⟨b.handler, button, x, y, b.userdata⟩ : MouseCall)) := by
    simp [input_handle_mouse_down_bind, hinit, hdn, runMouseBtnBinds_eq]
  refine ⟨?_, ?_, ?_, ?_, ?_, ?_, ?_, ?_, ?_⟩
  · intro c
    rw [hkd, mem_filter_map_iff]
    simp
  · intro c
    rw [hku, mem_filter_map_iff]
    simp
  · intro c
    rw [hch]
    simp only [List.mem_map]
    constructor
    · rintro ⟨b, hb, hfb⟩; exact ⟨b, hb, hfb.symm⟩
    · rintro ⟨b, hb, hfb⟩; exact ⟨b, hb, hfb.symm⟩
  · intro c
    rw [hmv, mem_filter_map_iff]
  · intro c
    rw [hmu, mem_filter_map_iff]
    simp [and_assoc]
  · intro c
    rw [hmd, mem_filter_map_iff]
    simp [and_assoc]
  · simp [rect_is_point_in]
  · intro f d kt
    cases kt <;> simp [input_add_key_bind, keyListOf, hinit, hc, hd, hu]
  · intro f d mt area
    cases mt <;> simp [input_add_mouse_bind, mouseListOf, hinit, hm, hup, hdn]

/-- Witness for C7 on the populated store: a key-down bind for key 13 fires
on key 13; a char bind registered for key 13 still fires when key 10 is
dispatched (char binds are key-agnostic); a move bind fires on the
inclusive rectangle edge (10,10); containment fails just outside the edge;
a successful registration returns a record holding the supplied handler and
userdata. -/
theorem claim_C7_witness :
    ((⟨5, 13, 33⟩ : KeyCall) ∈ (input_handle_key_down_bind (kenvFalseAt 5) 13 sFix).2)
  ∧ ((⟨5, 10, 30⟩ : KeyCall) ∈ (input_handle_char_bind (kenvFalseAt 5) 10 sFix).2)
  ∧ ((⟨9, MOUSE_NONE, 10, 10, 43⟩ : MouseCall)
       ∈ (input_handle_mouse_move_bind (menvFalseAt 7) 10 10 sFix).2)
  ∧ rect_is_point_in rect10 10 10 = true
  ∧ rect_is_point_in rect10 11 5 = false
  ∧ (input_add_key_bind 13 5 77 .BIND_CHAR sFix).2 = some ⟨.BIND_CHAR, 13, 5, 77⟩ := by
  have hA := claim_C7 (kenvFalseAt 5) (menvFalseAt 7) sFix 13 1 3 4 rect10
    [⟨.BIND_CHAR, 13, 5, 30⟩, ⟨.BIND_CHAR, 14, 6, 31⟩]
    [⟨.BIND_KEYDOWN, 13, 5, 33⟩, ⟨.BIND_KEYDOWN, 9, 6, 34⟩]
    [⟨.BIND_KEYUP, 13, 5, 32⟩, ⟨.BIND_KEYUP, 9, 6, 35⟩]
    [⟨.BIND_MOVE, rect10, 0, 9, 43⟩]
    [⟨.BIND_BTNUP, rect10, 1, 7, 40⟩]
    [⟨.BIND_BTNDOWN, rect10, 1, 7, 41⟩, ⟨.BIND_BTNDOWN, rect10, 2, 8, 42⟩,
     ⟨.BIND_BTNDOWN, rect10, 1, 9, 44⟩]
    rfl rfl rfl rfl rfl rfl rfl
  have hB := claim_C7 (kenvFalseAt 5) (menvFalseAt 7) sFix 10 1 10 10 rect10
    [⟨.BIND_CHAR, 13, 5, 30⟩, ⟨.BIND_CHAR, 14, 6, 31⟩]
    [⟨.BIND_KEYDOWN, 13, 5, 33⟩, ⟨.BIND_KEYDOWN, 9, 6, 34⟩]
    [⟨.BIND_KEYUP, 13, 5, 32⟩, ⟨.BIND_KEYUP, 9, 6, 35⟩]
    [⟨.BIND_MOVE, rect10, 0, 9, 43⟩]
    [⟨.BIND_BTNUP, rect10, 1, 7, 40⟩]
    [⟨.BIND_BTNDOWN, rect10, 1, 7, 41⟩, ⟨.BIND_BTNDOWN, rect10, 2, 8, 42⟩,
     ⟨.BIND_BTNDOWN, rect10, 1, 9, 44⟩]
    rfl rfl rfl rfl rfl rfl rfl
  refine ⟨?_, ?_, ?_, ?_, by decide, ?_⟩
  · exact (hA.1 ⟨5, 13, 33⟩).mpr
      ⟨⟨.BIND_KEYDOWN, 13, 5, 33⟩, by simp, rfl, rfl⟩
  · exact (hB.2.2.1 ⟨5, 10, 30⟩).mpr ⟨⟨.BIND_CHAR, 13, 5, 30⟩, by simp, rfl⟩
  · exact (hB.2.2.2.1 ⟨9, MOUSE_NONE, 10, 10, 43⟩).mpr
      ⟨⟨.BIND_MOVE, rect10, 0, 9, 43⟩, by simp, by decide, rfl⟩
  · exact (hB.2.2.2.2.2.2.1).mpr (by decide)
  · exact hA.2.2.2.2.2.2.2.1 5 77 .BIND_CHAR

/-- Claim C8: while uninitialized, every registration returns a null handle
or does nothing, every removal is a no-op and every dispatch entry point
returns true; furthermore the two raw dispatchers return true with an
empty invocation trace (no event value is ever passed to a handler)
whenever the event type is out of range or the hook collection for it is
empty. -/
theorem claim_C8 (s : InputState)
    (henv : Nat → InputEvent → Int → Int → Bool) (kenv : Nat → Nat → Nat → Bool)
    (menv : Nat → Nat → Int → Int → Nat → Bool)
    (event_id type key button wheel hook f d : Nat) (x y : Int) (area : Rect)
    (kt : BINDTYPE_KB) (mt : BINDTYPE_MOUSE) (kb : KeyBind) (mb : MouseBind) :
    (s.input_initialized = false →
        input_add_key_bind key f d kt s = (s, none)
      ∧ input_add_mouse_bind button area f d mt s = (s, none)
      ∧ input_add_hook event_id hook s = s
      ∧ input_remove_hook event_id hook s = s
      ∧ input_remove_key_bind_from_list key f kt s = s
      ∧ input_remove_mouse_bind_from_list button f mt s = s
      ∧ input_remove_key_bind (some kb) s = some s
      ∧ input_remove_mouse_bind (some mb) s = some s
      ∧ input_handle_keyboard_event henv type key s = (s, true, [])
      ∧ input_handle_mouse_event henv type x y button wheel s = (s, true, [])
      ∧ input_handle_char_bind kenv key s = (true, [])
      ∧ input_handle_key_down_bind kenv key s = (true, [])
      ∧ input_handle_key_up_bind kenv key s = (true, [])
      ∧ input_handle_mouse_move_bind menv x y s = (true, [])
      ∧ input_handle_mouse_up_bind menv button x y s = (true, [])
      ∧ input_handle_mouse_down_bind menv button x y s = (true, []))
  ∧ (NUM_INPUT_EVENTS ≤ type →
        input_handle_keyboard_event henv type key s = (s, true, [])
      ∧ input_handle_mouse_event henv type x y button wheel s = (s, true, []))
  ∧ (s.input_hooks type = some [] →
        input_handle_keyboard_event henv type key s = (s, true, [])
      ∧ input_handle_mouse_event henv type x y button wheel s = (s, true, [])) := by
  refine ⟨?_, ?_, ?_⟩
  · intro hinit
    refine ⟨?_, ?_, ?_, ?_, ?_, ?_, ?_, ?_, ?_, ?_, ?_, ?_, ?_, ?_, ?_, ?_⟩
    · simp [input_add_key_bind, hinit]
    · simp [input_add_mouse_bind, hinit]
    · simp [input_add_hook, hinit]
    · simp [input_remove_hook, hinit]
    · simp [input_remove_key_bind_from_list, hinit]
    · simp [input_remove_mouse_bind_from_list, hinit]
    · simp [input_remove_key_bind, input_remove_key_bind_from_list, hinit]
    · simp [input_remove_mouse_bind, input_remove_mouse_bind_from_list, hinit]
    · simp [input_handle_keyboard_event, hinit]
    · simp [input_handle_mouse_event, hinit]
    · simp [input_handle_char_bind, hinit]
    · simp [input_handle_key_down_bind, hinit]
    · simp [input_handle_key_up_bind, hinit]
    · simp [input_handle_mouse_move_bind, hinit]
    · simp [input_handle_mouse_up_bind, hinit]
    · simp [input_handle_mouse_down_bind, hinit]
  · intro hge
    constructor
    · cases hin : s.input_initialized <;> simp [input_handle_keyboard_event, hin, hge]
    · cases hin : s.input_initialized <;> simp [input_handle_mouse_event, hin, hge]
  · intro hempty
    constructor
    · cases hin : s.input_initialized
      · simp [input_handle_keyboard_event, hin]
      · by_cases hge : NUM_INPUT_EVENTS ≤ type
        · simp [input_handle_keyboard_event, hin, hge]
        · simp [input_handle_keyboard_event, hin, hge, hempty]
    · cases hin : s.input_initialized
      · simp [input_handle_mouse_event, hin]
      · by_cases hge : NUM_INPUT_EVENTS ≤ type
        · simp [input_handle_mouse_event, hin, hge]
        · simp [input_handle_mouse_event, hin, hge, hempty]

/-- Witness for C8: on the startup (uninitialized) state a registration
returns a null handle and a dispatch returns true with no invocation; on
the populated store an out-of-range event type (99) passes through; on a
freshly initialized store the hook collection of event 2 is empty and both
raw dispatchers pass through without invoking anything. -/
theorem claim_C8_witness :
    input_add_key_bind 13 5 0 .BIND_CHAR initialState = (initialState, none)
  ∧ input_handle_char_bind (kenvFalseAt 5) 13 initialState = (true, [])
  ∧ input_handle_keyboard_event henvTrue 99 13 sFix = (sFix, true, [])
  ∧ input_handle_keyboard_event henvTrue 2 13 stInit = (stInit, true, [])
  ∧ input_handle_mouse_event henvTrue 2 3 4 1 0 stInit = (stInit, true, []) := by
  have hA := claim_C8 initialState henvTrue (kenvFalseAt 5) (menvFalseAt 7)
    0 2 13 1 0 11 5 0 3 4 rect10 .BIND_CHAR .BIND_MOVE
    ⟨.BIND_CHAR, 13, 5, 0⟩ ⟨.BIND_MOVE, rect10, 0, 7, 0⟩
  have hB := claim_C8 sFix henvTrue (kenvFalseAt 5) (menvFalseAt 7)
    0 99 13 1 0 11 5 0 3 4 rect10 .BIND_CHAR .BIND_MOVE
    ⟨.BIND_CHAR, 13, 5, 0⟩ ⟨.BIND_MOVE, rect10, 0, 7, 0⟩
  have hC := claim_C8 stInit henvTrue (kenvFalseAt 5) (menvFalseAt 7)
    0 2 13 1 0 11 5 0 3 4 rect10 .BIND_CHAR .BIND_MOVE
    ⟨.BIND_CHAR, 13, 5, 0⟩ ⟨.BIND_MOVE, rect10, 0, 7, 0⟩
  obtain ⟨a1, -, -, -, -, -, -, -, -, -, a2, -⟩ := hA.1 rfl
  obtain ⟨b1, -⟩ := hB.2.1 (by decide)
  obtain ⟨c1, c2⟩ := hC.2.2 rfl
  exact ⟨a1, a2, b1, c1, c2⟩

/-- Claim C9 is false on the code: `input_remove_key_bind` and
`input_remove_mouse_bind` read the fields of the bind handle without a null
check (lines 315 and 363), so a null handle is dereferenced and the call is
not a no-op that leaves the state unchanged (in this model the call has no
defined result at all). -/
theorem claim_C9_counterexample :
    input_remove_key_bind none initialState ≠ some initialState
  ∧ input_remove_mouse_bind none initialState ≠ some initialState := by
  constructor
  · intro h
    simp [input_remove_key_bind] at h
  · intro h
    simp [input_remove_mouse_bind] at h

/-- Claim C9 (amended): initialization ( input_initialize) with a null
window does nothing
and the four mouse-bind mutators do nothing on a null bind; but
`input_remove_key_bind` and `input_remove_mouse_bind` dereference the bind
handle unconditionally, so a null handle is undefined behavior rather than
a no-op, and with a valid handle they delegate to the bulk removal with the
fields stored in the handle. -/
theorem claim_C9_amended (s : InputState) (b : MouseBind) (kb : KeyBind)
    (btn f d : Nat) (area : Rect) :
    input_initialize none s = s
  ∧ input_set_mousebind_button none btn = none
  ∧ input_set_mousebind_rect none area = none
  ∧ input_set_mousebind_func none f = none
  ∧ input_set_mousebind_param none d = none
  ∧ input_set_mousebind_button (some b) btn = some { b with button := btn }
  ∧ input_set_mousebind_rect (some b) area = some { b with bounds := area }
  ∧ input_set_mousebind_func (some b) f = some { b with handler := f }
  ∧ input_set_mousebind_param (some b) d = some { b with userdata := d }
  ∧ input_remove_key_bind none s = none
  ∧ input_remove_mouse_bind none s = none
  ∧ input_remove_key_bind (some kb) s
      = some (input_remove_key_bind_from_list kb.key kb.handler kb.type s)
  ∧ input_remove_mouse_bind (some b) s
      = some (input_remove_mouse_bind_from_list b.button b.handler b.type s) :=
  ⟨rfl, rfl, rfl, rfl, rfl, rfl, rfl, rfl, rfl, rfl, rfl, rfl, rfl⟩

/-- Claim C10: neither shutdown nor initialize (nor a full
shutdown-then-initialize cycle) resets the keyboard-block flag, the stored
cursor position or the cursor-visibility flag; consequently a keyboard
block enabled before shutdown still forces the keyboard dispatch to report
suppress after re-initialization once a hook is registered again. -/
theorem claim_C10 (s : InputState) (w : Option Unit)
    (henv : Nat → InputEvent → Int → Int → Bool) (type key hook : Nat)
    (htype : type < NUM_INPUT_EVENTS) :
    (input_shutdown s).block_keys = s.block_keys
  ∧ (input_shutdown s).mouse_x = s.mouse_x
  ∧ (input_shutdown s).mouse_y = s.mouse_y
  ∧ (input_shutdown s).show_cursor = s.show_cursor
  ∧ ( input_initialize w s).block_keys = s.block_keys
  ∧ ( input_initialize w s).mouse_x = s.mouse_x
  ∧ ( input_initialize w s).mouse_y = s.mouse_y
  ∧ ( input_initialize w s).show_cursor = s.show_cursor
  ∧ ( input_initialize w (input_shutdown s)).block_keys = s.block_keys
  ∧ ( input_initialize w (input_shutdown s)).mouse_x = s.mouse_x
  ∧ ( input_initialize w (input_shutdown s)).mouse_y = s.mouse_y
  ∧ ( input_initialize w (input_shutdown s)).show_cursor = s.show_cursor
  ∧ (s.block_keys = true →
      (input_handle_keyboard_event henv type key
        (input_add_hook type hook
          ( input_initialize (some ()) (input_shutdown s)))).2.1 = false) := by
  have hne : ¬ NUM_INPUT_EVENTS ≤ type := Nat.not_le.mpr htype
  have hsd : (input_shutdown s).block_keys = s.block_keys
      ∧ (input_shutdown s).mouse_x = s.mouse_x
      ∧ (input_shutdown s).mouse_y = s.mouse_y
      ∧ (input_shutdown s).show_cursor = s.show_cursor := by
    cases hin : s.input_initialized <;> simp [input_shutdown, hin]
  have hiz : ∀ u : InputState, ( input_initialize w u).block_keys = u.block_keys
      ∧ ( input_initialize w u).mouse_x = u.mouse_x
      ∧ ( input_initialize w u).mouse_y = u.mouse_y
      ∧ ( input_initialize w u).show_cursor = u.show_cursor := by
    intro u
    cases w <;> simp [ input_initialize]
  refine ⟨hsd.1, hsd.2.1, hsd.2.2.1, hsd.2.2.2,
    (hiz s).1, (hiz s).2.1, (hiz s).2.2.1, (hiz s).2.2.2,
    ((hiz (input_shutdown s)).1).trans hsd.1,
    ((hiz (input_shutdown s)).2.1).trans hsd.2.1,
    ((hiz (input_shutdown s)).2.2.1).trans hsd.2.2.1,
    ((hiz (input_shutdown s)).2.2.2).trans hsd.2.2.2, ?_⟩
  intro hb
  have hini : (input_add_hook type hook
      ( input_initialize (some ()) (input_shutdown s))).input_initialized = true := by
    cases hin : s.input_initialized <;>
      simp [input_add_hook, input_initialize, input_shutdown, hin, hne, htype]
  have hhl : (input_add_hook type hook
      ( input_initialize (some ()) (input_shutdown s))).input_hooks type = some [hook] := by
    cases hin : s.input_initialized <;>
      simp [input_add_hook, input_initialize, input_shutdown, hin, hne, htype]
  have hbk : (input_add_hook type hook
      ( input_initialize (some ()) (input_shutdown s))).block_keys = true := by
    cases hin : s.input_initialized <;>
      simp [input_add_hook, input_initialize, input_shutdown, hin, hne, htype, hb]
  cases hr : (runHooks henv (InputEvent.keyboard type key)
      (input_add_hook type hook ( input_initialize (some ()) (input_shutdown s))).mouse_x
      (input_add_hook type hook ( input_initialize (some ()) (input_shutdown s))).mouse_y
      [hook]).1 <;>
    simp [input_handle_keyboard_event, hini, hne, hhl, hbk, hr]

/-- Witness for C10: the blocked populated store keeps block flag, cursor
position and cursor visibility across a shutdown-then-initialize cycle, and
keyboard dispatch still reports suppress after a hook is registered on the
re-initialized store. -/
theorem claim_C10_witness :
    ( input_initialize (some ()) (input_shutdown sBlock)).block_keys = true
  ∧ ( input_initialize (some ()) (input_shutdown sBlock)).mouse_x = 0
  ∧ ( input_initialize (some ()) (input_shutdown sBlock)).show_cursor = true
  ∧ (input_handle_keyboard_event henvTrue 2 13
      (input_add_hook 2 99 ( input_initialize (some ()) (input_shutdown sBlock)))).2.1
      = false := by
  have h := claim_C10 sBlock (some ()) henvTrue 2 13 99 (by decide)
  obtain ⟨-, -, -, -, -, -, -, -, c1, c2, -, c4, c5⟩ := h
  exact ⟨c1, c2, c4, c5 rfl⟩

end Input
